import Mathlib

/-!
Shallow embedding of the host-side signal interception layer of the
Open Enclave SDK (host/sgx/linux/exception.c): the static signal catalogs,
the saved-disposition registry `g_previous_sigaction`, the multiplexing
signal handler `_host_signal_handler`, and the one-time installation routine
`_register_signal_handlers`.

Machine state that the C code manipulates through OS primitives is made
explicit: the live per-signal OS dispositions (as set by `sigaction`,
`signal`), the process signal mask (as set by `pthread_sigmask`), and the
file-static array `g_previous_sigaction`.  The enclave entry point
`oe_host_handle_exception` and the previously installed signal handler are
external code; they are passed in as parameters (a verdict, and an effect on
the OS-visible state).  Observable calls made by the handler are recorded in
an event trace.
-/

namespace OE

/- Linux (x86-64) signal numbers, as used by the source. -/

def SIGHUP : Nat := 1
def SIGILL : Nat := 4
def SIGTRAP : Nat := 5
def SIGABRT : Nat := 6
def SIGBUS : Nat := 7
def SIGFPE : Nat := 8
def SIGUSR1 : Nat := 10
def SIGSEGV : Nat := 11
def SIGUSR2 : Nat := 12
def SIGPIPE : Nat := 13
def SIGALRM : Nat := 14
def SIGPOLL : Nat := 29

/- Linux `sa_flags` bits. -/

def SA_SIGINFO : Nat := 0x00000004
def SA_RESTART : Nat := 0x10000000
def SA_NODEFER : Nat := 0x40000000
def SA_RESETHAND : Nat := 0x80000000

/-- `static int default_signals[] = {SIGBUS, SIGFPE, SIGILL, SIGSEGV, SIGTRAP};` -/
def default_signals : List Nat := [SIGBUS, SIGFPE, SIGILL, SIGSEGV, SIGTRAP]

/-- `static int optional_signals[] = {SIGHUP, SIGABRT, SIGALRM, SIGPIPE, SIGPOLL, SIGUSR1, SIGUSR2};` -/
def optional_signals : List Nat :=
  [SIGHUP, SIGABRT, SIGALRM, SIGPIPE, SIGPOLL, SIGUSR1, SIGUSR2]

/-- The value stored in the `sa_handler`/`sa_sigaction` union of a
`struct sigaction`: the `SIG_DFL` sentinel, the `SIG_IGN` sentinel, the
subsystem's own handler `_host_signal_handler`, or some other concrete
handler function (identified by its address). -/
inductive Handler where
  | dfl
  | ign
  | translator
  | custom (addr : Nat)
deriving DecidableEq

/-- A `struct sigaction`: handler pointer, blocked-signal mask, flags. -/
structure Sigaction where
  sa_handler : Handler
  sa_mask : Finset Nat
  sa_flags : Nat
deriving DecidableEq

/-- The OS-visible per-process signal state: the live disposition table
(what `sigaction`/`signal` installed for each signal number) and the
process signal mask (what `pthread_sigmask`/`sigprocmask` report). -/
structure OsState where
  live : Nat → Sigaction
  mask : Finset Nat

/-- Whole modelled state: the file-static registry
`static struct sigaction g_previous_sigaction[_NSIG]` plus the OS state. -/
structure HostState where
  g_previous_sigaction : Nat → Sigaction
  os : OsState

/-- The OS-supplied machine context fields the handler reads
(`ucontext_t` registers and `siginfo_t.si_addr`). -/
structure MContext where
  rax : Nat
  rbx : Nat
  rip : Nat
  si_addr : Nat
deriving DecidableEq

/-- `oe_host_exception_context_t host_context` as filled in by
`_host_signal_handler` before calling `oe_host_handle_exception`. -/
structure HostExceptionContext where
  rax : Nat
  rbx : Nat
  rip : Nat
  faulting_address : Nat
  signal_number : Nat
deriving DecidableEq

/-- Verdict returned by the enclave entry point `oe_host_handle_exception`:
`OE_EXCEPTION_CONTINUE_EXECUTION` or anything else (not handled). -/
inductive Action where
  | continueExecution
  | notHandled
deriving DecidableEq

/-- Observable calls the handler makes, in order. -/
inductive Event where
  | submitException (ctx : HostExceptionContext)
  | setMask (m : Finset Nat)
  | invokeSiginfo (h : Handler) (sig : Nat)
  | invokeSimple (h : Handler) (sig : Nat)
  | resetToDefault (sig : Nat)
  | raiseSig (sig : Nat)
  | defaultAction (sig : Nat)
deriving DecidableEq

/-- The loop
`for i in 0..DEFAULT_SIGNALS_NUMBER: if (sig_num == default_signals[i] && sig_num != SIGSEGV) { signal_number = 0; break; }`
over an explicit list, returning the resulting `host_context.signal_number`
(which starts out as `sig_num`). -/
def signalNumberLoop : List Nat → Nat → Nat
  | [], sig_num => sig_num
  | d :: rest, sig_num =>
    if sig_num = d ∧ sig_num ≠ SIGSEGV then 0 else signalNumberLoop rest sig_num

/-- Builds `host_context` from the machine context, applying the
signal-number carve-out loop. -/
def buildHostContext (sig_num : Nat) (ctx : MContext) : HostExceptionContext :=
  { rax := ctx.rax
    rbx := ctx.rbx
    rip := ctx.rip
    faulting_address := ctx.si_addr
    signal_number := signalNumberLoop default_signals sig_num }

/-- The loop
`for i in 0..OPTIONAL_SIGNALS_NUMBER: if (sig_num == optional_signals[i] && sig_num != SIGABRT) return;`
as a predicate: `true` iff the handler returns (bypasses) here. -/
def optionalBypassLoop : List Nat → Nat → Bool
  | [], _ => false
  | o :: rest, sig_num =>
    if sig_num = o ∧ sig_num ≠ SIGABRT then true else optionalBypassLoop rest sig_num

/-- The `else` arm of `_host_signal_handler` that transfers the signal to the
old signal handler: conditional `sigaddset` into the saved mask, mask swap via
`pthread_sigmask`, invocation in the convention chosen by `SA_SIGINFO`,
mask restore, and the `SA_RESETHAND` bookkeeping on the saved entry.
`eff` is the (externally supplied) effect of running the previous handler on
the OS-visible state. -/
def chainToPrevious (eff : OsState → OsState) (sig_num : Nat) (s : HostState) :
    HostState × List Event :=
  let pa := s.g_previous_sigaction sig_num
  let pa' := if pa.sa_flags.land SA_NODEFER = 0
             then { pa with sa_mask := insert sig_num pa.sa_mask }
             else pa
  let prev' := Function.update s.g_previous_sigaction sig_num pa'
  let current_set := s.os.mask
  let os₁ : OsState := { s.os with mask := pa'.sa_mask }
  let invokeEvent := if pa'.sa_flags.land SA_SIGINFO ≠ 0
                     then Event.invokeSiginfo pa'.sa_handler sig_num
                     else Event.invokeSimple pa'.sa_handler sig_num
  let os₂ := eff os₁
  let os₃ : OsState := { os₂ with mask := current_set }
  let pa'' := if pa'.sa_flags.land SA_RESETHAND ≠ 0
              then { pa' with sa_handler := Handler.dfl }
              else pa'
  let prev'' := Function.update prev' sig_num pa''
  ({ g_previous_sigaction := prev'', os := os₃ },
   [Event.setMask pa'.sa_mask, invokeEvent, Event.setMask current_set])

/-- `_host_signal_handler(sig_num, sig_info, sig_data)`.
`verdict` is the value returned by `oe_host_handle_exception`; `eff` the
effect of the chained previous handler, if one is invoked.  Returns the
post-state and the trace of observable calls. -/
def host_signal_handler (verdict : Action) (eff : OsState → OsState)
    (sig_num : Nat) (mctx : MContext) (s : HostState) : HostState × List Event :=
  let host_context := buildHostContext sig_num mctx
  let rest : HostState × List Event :=
    if verdict = Action.continueExecution then
      (s, [])
    else if (s.g_previous_sigaction sig_num).sa_handler = Handler.dfl then
      if optionalBypassLoop optional_signals sig_num then
        (s, [])
      else
        ({ s with os := { s.os with
             live := Function.update s.os.live sig_num
               { sa_handler := Handler.dfl, sa_mask := ∅, sa_flags := 0 } } },
         [Event.resetToDefault sig_num, Event.raiseSig sig_num])
    else
      chainToPrevious eff sig_num s
  (rest.1, Event.submitException host_context :: rest.2)

/-- Delivery of an unblocked signal by the OS: dispatch on the live
disposition.  A default disposition performs the default action; an ignored
signal is discarded; the installed translator runs `_host_signal_handler`;
another concrete handler is invoked in the convention its live registration
chose. -/
def deliverSignal (verdict : Action) (eff : OsState → OsState)
    (sig_num : Nat) (mctx : MContext) (s : HostState) : HostState × List Event :=
  match (s.os.live sig_num).sa_handler with
  | Handler.dfl => (s, [Event.defaultAction sig_num])
  | Handler.ign => (s, [])
  | Handler.translator => host_signal_handler verdict eff sig_num mctx s
  | Handler.custom a =>
    (s, [if (s.os.live sig_num).sa_flags.land SA_SIGINFO ≠ 0
         then Event.invokeSiginfo (Handler.custom a) sig_num
         else Event.invokeSimple (Handler.custom a) sig_num])

/-- Whether a given OS call fails, supplied by the environment:
the `sigprocmask` mask query and each `sigaction` registration. -/
structure OsCallFailures where
  sigprocmaskFails : Bool
  sigactionFails : Nat → Bool

/-- The registration loop body shared by the two loops of
`_register_signal_handlers`: `sigdelset(&sig_action.sa_mask, signal_number)`
then `sigaction(signal_number, &sig_action, &g_previous_sigaction[signal_number])`,
aborting (`none`) on failure.  Threads the mutated `sig_action` through. -/
def registerLoop (fails : OsCallFailures) :
    List Nat → Sigaction → HostState → Option (Sigaction × HostState)
  | [], sig_action, s => some (sig_action, s)
  | signal_number :: rest, sig_action, s =>
    let sig_action' := { sig_action with sa_mask := sig_action.sa_mask.erase signal_number }
    if fails.sigactionFails signal_number then
      none
    else
      let s' : HostState :=
        { g_previous_sigaction :=
            Function.update s.g_previous_sigaction signal_number (s.os.live signal_number)
          os := { s.os with
            live := Function.update s.os.live signal_number sig_action' } }
      registerLoop fails rest sig_action' s'

/-- `_register_signal_handlers()`: build `sig_action` (translator handler,
`SA_SIGINFO | SA_NODEFER | SA_RESTART`, mask seeded from the caller's current
process mask via `sigprocmask(SIG_SETMASK, NULL, ...)`), then run the two
registration loops.  `none` models `abort()`. -/
def register_signal_handlers (fails : OsCallFailures) (s : HostState) :
    Option HostState :=
  if fails.sigprocmaskFails then
    none
  else
    let sig_action : Sigaction :=
      { sa_handler := Handler.translator
        sa_mask := s.os.mask
        sa_flags := (SA_SIGINFO.lor SA_NODEFER).lor SA_RESTART }
    match registerLoop fails default_signals sig_action s with
    | none => none
    | some (sig_action₁, s₁) =>
      match registerLoop fails optional_signals sig_action₁ s₁ with
      | none => none
      | some (_, s₂) => some s₂

/-- The installed state when no OS call fails (used to evaluate concrete
installation scenarios; identical to `register_signal_handlers` up to
unwrapping the abort option). -/
def runInstaller (fails : OsCallFailures) (s : HostState) : HostState :=
  (register_signal_handlers fails s).getD s

/-- Registration order of the whole catalog: the mandatory list followed by
the optional list, exactly as `_register_signal_handlers` iterates. -/
def catalogOrder : List Nat := default_signals ++ optional_signals

/-- A caller mask after a sequence of `sigdelset` calls. -/
def maskAfter (caller : Finset Nat) (sigs : List Nat) : Finset Nat :=
  sigs.foldl Finset.erase caller

end OE

namespace OE

/-! ### Concrete fixtures for witnesses and counterexamples -/

/-- An all-default `struct sigaction`: `SIG_DFL`, empty mask, no flags. -/
def blankSigaction : Sigaction := { sa_handler := Handler.dfl, sa_mask := ∅, sa_flags := 0 }

/-- Failure-free OS call environment. -/
def noFailures : OsCallFailures := { sigprocmaskFails := false, sigactionFails := fun _ => false }

/-- A zeroed machine context. -/
def mctx0 : MContext := { rax := 0, rbx := 0, rip := 0, si_addr := 0 }

/-- Host state with every disposition default and an empty process mask. -/
def blankState : HostState :=
  { g_previous_sigaction := fun _ => blankSigaction
    os := { live := fun _ => blankSigaction, mask := ∅ } }

/-- Host state whose caller signal mask blocks `SIGFPE` at installation time. -/
def maskFpeState : HostState :=
  { g_previous_sigaction := fun _ => blankSigaction
    os := { live := fun _ => blankSigaction, mask := {SIGFPE} } }

/-- The `struct sigaction` that `_register_signal_handlers` installs when the
caller's mask is empty: the translator with
`SA_SIGINFO | SA_NODEFER | SA_RESTART`. -/
def installedSigaction : Sigaction :=
  { sa_handler := Handler.translator
    sa_mask := ∅
    sa_flags := (SA_SIGINFO.lor SA_NODEFER).lor SA_RESTART }

/-- Host state after an installation in which a prior handler (address 7,
no flags) had been registered for `SIGUSR1`. -/
def chainState : HostState :=
  { g_previous_sigaction := fun n =>
      if n = SIGUSR1 then { sa_handler := Handler.custom 7, sa_mask := ∅, sa_flags := 0 }
      else blankSigaction
    os :=
      { live := fun n => if n = SIGUSR1 then installedSigaction else blankSigaction
        mask := ∅ } }

/-- Host state after an installation in which a prior handler (address 7)
had been registered for `SIGUSR1` with `SA_RESETHAND`. -/
def resetHandState : HostState :=
  { g_previous_sigaction := fun n =>
      if n = SIGUSR1 then
        { sa_handler := Handler.custom 7, sa_mask := ∅, sa_flags := SA_RESETHAND }
      else blankSigaction
    os :=
      { live := fun n => if n = SIGUSR1 then installedSigaction else blankSigaction
        mask := ∅ } }

/-- Host state in which the saved prior disposition for `SIGUSR1` is the
`SIG_IGN` sentinel with no flags. -/
def ignState : HostState :=
  { g_previous_sigaction := fun n =>
      if n = SIGUSR1 then { sa_handler := Handler.ign, sa_mask := ∅, sa_flags := 0 }
      else blankSigaction
    os :=
      { live := fun n => if n = SIGUSR1 then installedSigaction else blankSigaction
        mask := ∅ } }

/-- OS environment in which the `sigaction` registration for `SIGBUS` fails. -/
def failBus : OsCallFailures :=
  { sigprocmaskFails := false, sigactionFails := fun n => n = SIGBUS }

/-! ### Basic lemmas about the two membership loops -/

theorem signalNumberLoop_mem {l : List Nat} {sig_num : Nat}
    (hm : sig_num ∈ l) (hs : sig_num ≠ SIGSEGV) : signalNumberLoop l sig_num = 0 := by
  induction l with
  | nil => cases hm
  | cons d rest ih =>
    by_cases hd : sig_num = d
    · rw [signalNumberLoop, if_pos ⟨hd, hs⟩]
    · rcases List.mem_cons.mp hm with h | h
      · exact absurd h hd
      · rw [signalNumberLoop, if_neg (by simp [hd]), ih h]

theorem signalNumberLoop_not_mem {l : List Nat} {sig_num : Nat}
    (hm : sig_num ∉ l) : signalNumberLoop l sig_num = sig_num := by
  induction l with
  | nil => rfl
  | cons d rest ih =>
    rw [signalNumberLoop, if_neg (by simp [List.ne_of_not_mem_cons hm]),
      ih (List.not_mem_of_not_mem_cons hm)]

theorem signalNumberLoop_segv (l : List Nat) : signalNumberLoop l SIGSEGV = SIGSEGV := by
  induction l with
  | nil => rfl
  | cons d rest ih => rw [signalNumberLoop, if_neg (by simp), ih]

theorem optionalBypassLoop_mem {l : List Nat} {sig_num : Nat}
    (hm : sig_num ∈ l) (ha : sig_num ≠ SIGABRT) : optionalBypassLoop l sig_num = true := by
  induction l with
  | nil => cases hm
  | cons o rest ih =>
    by_cases ho : sig_num = o
    · rw [optionalBypassLoop, if_pos ⟨ho, ha⟩]
    · rcases List.mem_cons.mp hm with h | h
      · exact absurd h ho
      · rw [optionalBypassLoop, if_neg (by simp [ho]), ih h]

theorem optionalBypassLoop_not_mem {l : List Nat} {sig_num : Nat}
    (hm : sig_num ∉ l) : optionalBypassLoop l sig_num = false := by
  induction l with
  | nil => rfl
  | cons o rest ih =>
    rw [optionalBypassLoop, if_neg (by simp [List.ne_of_not_mem_cons hm]),
      ih (List.not_mem_of_not_mem_cons hm)]

/-- The two static signal catalogs are disjoint. -/
theorem optional_not_default : ∀ sig_num ∈ optional_signals, sig_num ∉ default_signals := by
  decide

theorem registerLoop_none {fails : OsCallFailures} {l : List Nat} {sig_num : Nat}
    (hm : sig_num ∈ l) (hf : fails.sigactionFails sig_num = true) :
    ∀ sig_action s, registerLoop fails l sig_action s = none := by
  induction l with
  | nil => cases hm
  | cons d rest ih =>
    intro sig_action s
    by_cases hd : fails.sigactionFails d = true
    · rw [registerLoop, if_pos hd]
    · rcases List.mem_cons.mp hm with h | h
      · subst h; exact absurd hf hd
      · rw [registerLoop, if_neg hd]
        exact ih h _ _

/-- The two static signal catalogs are disjoint (other direction). -/
theorem default_not_optional : ∀ sig_num ∈ default_signals, sig_num ∉ optional_signals := by
  decide

/-! ### Claim C1: signal-number carve-out -/

/-- C1: on every delivery, the `ExceptionContext` handed to the enclave entry
point is the one built by the translator, and its signal identifier is 0 when
the true signal is a mandatory catalog signal other than `SIGSEGV`, and the
true OS signal number when the signal is `SIGSEGV` or an optional catalog
signal. -/
theorem C1_carve_out_signal_number (verdict : Action) (eff : OsState → OsState)
    (sig_num : Nat) (mctx : MContext) (s : HostState) :
    (host_signal_handler verdict eff sig_num mctx s).2.head? =
      some (Event.submitException (buildHostContext sig_num mctx)) ∧
    (sig_num ∈ default_signals → sig_num ≠ SIGSEGV →
      (buildHostContext sig_num mctx).signal_number = 0) ∧
    ((sig_num = SIGSEGV ∨ sig_num ∈ optional_signals) →
      (buildHostContext sig_num mctx).signal_number = sig_num) := by
  refine ⟨rfl, ?_, ?_⟩
  · intro hm hs
    simp [buildHostContext, signalNumberLoop_mem hm hs]
  · rintro (h | h)
    · subst h; simp [buildHostContext, signalNumberLoop_segv]
    · simp [buildHostContext, signalNumberLoop_not_mem (optional_not_default _ h)]

/-- Witness for C1 at `SIGBUS` (mandatory, reported as 0) and `SIGUSR1`
(optional, reported truthfully). -/
theorem C1_witness :
    (buildHostContext SIGBUS mctx0).signal_number = 0 ∧
    (buildHostContext SIGUSR1 mctx0).signal_number = SIGUSR1 :=
  ⟨(C1_carve_out_signal_number Action.notHandled id SIGBUS mctx0 blankState).2.1
      (by decide) (by decide),
   (C1_carve_out_signal_number Action.notHandled id SIGUSR1 mctx0 blankState).2.2
      (Or.inr (by decide))⟩

/-! ### Claim C2: SA_RESETHAND one-shot chaining -/

/-- C2 counterexample: a chained one-shot delivery through a saved
`SA_RESETHAND` disposition does invoke the old handler, but afterwards the
live OS disposition for the signal is still the translator, not the default
action the claim requires. -/
theorem C2_counterexample :
    (resetHandState.g_previous_sigaction SIGUSR1).sa_handler = Handler.custom 7 ∧
    (resetHandState.g_previous_sigaction SIGUSR1).sa_flags.land SA_RESETHAND ≠ 0 ∧
    Event.invokeSimple (Handler.custom 7) SIGUSR1 ∈
      (host_signal_handler Action.notHandled id SIGUSR1 mctx0 resetHandState).2 ∧
    ((host_signal_handler Action.notHandled id SIGUSR1 mctx0 resetHandState).1.os.live
        SIGUSR1).sa_handler = Handler.translator ∧
    ((host_signal_handler Action.notHandled id SIGUSR1 mctx0 resetHandState).1.os.live
        SIGUSR1).sa_handler ≠ Handler.dfl := by
  decide

/-- C2 amended: after one chained delivery through a saved prior disposition
whose flags request `SA_RESETHAND`, the saved registry entry's handler (not
the live OS disposition) is reset to the default sentinel, and a second
delivery of the same signal does not invoke the old handler again under any
verdict. -/
theorem C2_resethand (s : HostState) (sig_num a : Nat) (mctx₁ mctx₂ : MContext)
    (eff₁ eff₂ : OsState → OsState) (v₂ : Action)
    (hh : (s.g_previous_sigaction sig_num).sa_handler = Handler.custom a)
    (hr : (s.g_previous_sigaction sig_num).sa_flags.land SA_RESETHAND ≠ 0) :
    ((host_signal_handler Action.notHandled eff₁ sig_num mctx₁ s).1.g_previous_sigaction
        sig_num).sa_handler = Handler.dfl ∧
    (∀ e ∈ (host_signal_handler v₂ eff₂ sig_num mctx₂
        (host_signal_handler Action.notHandled eff₁ sig_num mctx₁ s).1).2,
      e ≠ Event.invokeSimple (Handler.custom a) sig_num ∧
      e ≠ Event.invokeSiginfo (Handler.custom a) sig_num) := by
  have h1 : ((host_signal_handler Action.notHandled eff₁ sig_num mctx₁ s).1.g_previous_sigaction
      sig_num).sa_handler = Handler.dfl := by
    by_cases hnd : (s.g_previous_sigaction sig_num).sa_flags.land SA_NODEFER = 0 <;>
      simp [host_signal_handler, chainToPrevious, hh, hr, hnd]
  refine ⟨h1, ?_⟩
  generalize hS : (host_signal_handler Action.notHandled eff₁ sig_num mctx₁ s).1 = s₁ at h1 ⊢
  intro e he
  cases v₂ with
  | continueExecution =>
    simp [host_signal_handler] at he
    simp [he]
  | notHandled =>
    by_cases hbp : optionalBypassLoop optional_signals sig_num = true
    · simp [host_signal_handler, h1, hbp] at he
      subst he
      simp
    · simp [host_signal_handler, h1, hbp] at he
      rcases he with rfl | rfl | rfl <;> simp

/-- Witness for C2 (amended): the saved `SIGUSR1` entry is default after the
first chained delivery, and the second delivery does not invoke handler 7. -/
theorem C2_witness :
    ((host_signal_handler Action.notHandled id SIGUSR1 mctx0 resetHandState).1.g_previous_sigaction
        SIGUSR1).sa_handler = Handler.dfl ∧
    Event.invokeSimple (Handler.custom 7) SIGUSR1 ∉
      (host_signal_handler Action.notHandled id SIGUSR1 mctx0
        (host_signal_handler Action.notHandled id SIGUSR1 mctx0 resetHandState).1).2 := by
  have h := C2_resethand resetHandState SIGUSR1 7 mctx0 mctx0 id id Action.notHandled
    (by decide) (by decide)
  exact ⟨h.1, fun hmem => (h.2 _ hmem).1 rfl⟩

/-! ### Claim C3: registry write-once -/

/-- C3 counterexample: chaining to the prior `SIGUSR1` handler mutates the
saved registry entry, adding the delivered signal to its saved mask. -/
theorem C3_counterexample :
    (chainState.g_previous_sigaction SIGUSR1).sa_handler = Handler.custom 7 ∧
    (chainState.g_previous_sigaction SIGUSR1).sa_mask = ∅ ∧
    ((host_signal_handler Action.notHandled id SIGUSR1 mctx0 chainState).1.g_previous_sigaction
        SIGUSR1).sa_mask = {SIGUSR1} := by
  decide

/-- C3 amended: on a delivery of `sig_num` the handler never mutates the
registry entry of any other signal; the entry for `sig_num` keeps its flags
and is mutated only in the two resolver-documented ways (the saved mask
either stays or gains `sig_num`; the saved handler either stays or is reset
to the default sentinel), and is not mutated at all when the enclave handles
the exception or when the saved disposition is the default action. -/
theorem C3_registry_mutation (verdict : Action) (eff : OsState → OsState)
    (sig_num : Nat) (mctx : MContext) (s : HostState) :
    (∀ m, m ≠ sig_num →
      (host_signal_handler verdict eff sig_num mctx s).1.g_previous_sigaction m =
        s.g_previous_sigaction m) ∧
    ((host_signal_handler verdict eff sig_num mctx s).1.g_previous_sigaction sig_num).sa_flags =
      (s.g_previous_sigaction sig_num).sa_flags ∧
    (((host_signal_handler verdict eff sig_num mctx s).1.g_previous_sigaction sig_num).sa_mask =
        (s.g_previous_sigaction sig_num).sa_mask ∨
     ((host_signal_handler verdict eff sig_num mctx s).1.g_previous_sigaction sig_num).sa_mask =
        insert sig_num (s.g_previous_sigaction sig_num).sa_mask) ∧
    (((host_signal_handler verdict eff sig_num mctx s).1.g_previous_sigaction sig_num).sa_handler =
        (s.g_previous_sigaction sig_num).sa_handler ∨
     ((host_signal_handler verdict eff sig_num mctx s).1.g_previous_sigaction sig_num).sa_handler =
        Handler.dfl) ∧
    (verdict = Action.continueExecution →
      (host_signal_handler verdict eff sig_num mctx s).1.g_previous_sigaction =
        s.g_previous_sigaction) ∧
    ((s.g_previous_sigaction sig_num).sa_handler = Handler.dfl →
      (host_signal_handler verdict eff sig_num mctx s).1.g_previous_sigaction =
        s.g_previous_sigaction) := by
  cases verdict with
  | continueExecution => simp [host_signal_handler]
  | notHandled =>
    by_cases hdfl : (s.g_previous_sigaction sig_num).sa_handler = Handler.dfl
    · by_cases hbp : optionalBypassLoop optional_signals sig_num = true <;>
        simp [host_signal_handler, hdfl, hbp]
    · by_cases hnd : (s.g_previous_sigaction sig_num).sa_flags.land SA_NODEFER = 0 <;>
      by_cases hrh : (s.g_previous_sigaction sig_num).sa_flags.land SA_RESETHAND = 0 <;>
        simp [host_signal_handler, chainToPrevious, hdfl, hnd, hrh] <;>
        exact fun m hm => by simp [Function.update_noteq hm]

/-- Witness for C3 (amended) at a chained `SIGUSR1` delivery: the `SIGILL`
entry is untouched and the `SIGUSR1` entry keeps its flags. -/
theorem C3_witness :
    (host_signal_handler Action.notHandled id SIGUSR1 mctx0 chainState).1.g_previous_sigaction 4 =
      chainState.g_previous_sigaction 4 ∧
    ((host_signal_handler Action.notHandled id SIGUSR1 mctx0 chainState).1.g_previous_sigaction
        SIGUSR1).sa_flags = (chainState.g_previous_sigaction SIGUSR1).sa_flags := by
  have h := C3_registry_mutation Action.notHandled id SIGUSR1 mctx0 chainState
  exact ⟨h.1 4 (by decide), h.2.1⟩

/-! ### Claim C4: installed handler masks -/

/-- C4 counterexample: with a caller mask blocking the catalog signal
`SIGFPE`, the handler installed for `SIGBUS` still masks `SIGFPE`, although
the claim requires every catalog signal to have been removed from it. -/
theorem C4_counterexample :
    SIGFPE ∈ default_signals ∧
    maskFpeState.os.mask = {SIGFPE} ∧
    SIGFPE ∈ ((runInstaller noFailures maskFpeState).os.live SIGBUS).sa_mask ∧
    SIGFPE ∉ maskAfter maskFpeState.os.mask catalogOrder := by
  decide

/-- C4 amended: after a failure-free initialization, the handler registered
for the i-th catalog signal (mandatory list first, then optional list) has
execution mask equal to the caller's mask at initialization time with exactly
the catalog signals registered up to and including it removed; only the
last-registered signal has all catalog signals removed, and non-catalog
signals keep the caller's original masking. -/
theorem C4_install_masks (fails : OsCallFailures) (s : HostState)
    (hp : fails.sigprocmaskFails = false) (hf : ∀ n, fails.sigactionFails n = false)
    (i : Nat) (hi : i < catalogOrder.length) :
    (runInstaller fails s).os.live (catalogOrder.getD i 0) =
      { sa_handler := Handler.translator
        sa_mask := maskAfter s.os.mask (catalogOrder.take (i + 1))
        sa_flags := (SA_SIGINFO.lor SA_NODEFER).lor SA_RESTART } := by
  have hi' : i < 12 := by
    simpa [catalogOrder, default_signals, optional_signals] using hi
  interval_cases i <;>
    simp [runInstaller, register_signal_handlers, registerLoop, hp, hf, catalogOrder,
      default_signals, optional_signals, maskAfter, Function.update, List.getD,
      SIGHUP, SIGILL, SIGTRAP, SIGABRT, SIGBUS, SIGFPE, SIGUSR1, SIGSEGV, SIGUSR2,
      SIGPIPE, SIGALRM, SIGPOLL]

/-- Witness for C4 (amended) at the last catalog signal (`SIGUSR2`), whose
installed mask has all twelve catalog signals removed. -/
theorem C4_witness :
    (runInstaller noFailures maskFpeState).os.live (catalogOrder.getD 11 0) =
      { sa_handler := Handler.translator
        sa_mask := maskAfter maskFpeState.os.mask (catalogOrder.take 12)
        sa_flags := (SA_SIGINFO.lor SA_NODEFER).lor SA_RESTART } :=
  C4_install_masks noFailures maskFpeState rfl (fun _ => rfl) 11 (by decide)

/-! ### Claim C5: optional non-abort swallow -/

/-- C5: when the enclave does not handle an optional non-abort signal whose
saved disposition is the default action, the handler returns having called
only the enclave entry point: state (registry, live dispositions, mask) is
returned unchanged and no mask change, disposition change or re-raise is
performed. -/
theorem C5_optional_swallow (eff : OsState → OsState) (sig_num : Nat)
    (mctx : MContext) (s : HostState)
    (hopt : sig_num ∈ optional_signals) (habrt : sig_num ≠ SIGABRT)
    (hdfl : (s.g_previous_sigaction sig_num).sa_handler = Handler.dfl) :
    host_signal_handler Action.notHandled eff sig_num mctx s =
      (s, [Event.submitException (buildHostContext sig_num mctx)]) := by
  simp [host_signal_handler, hdfl, optionalBypassLoop_mem hopt habrt]

/-- Witness for C5 at an unhandled `SIGUSR1` with no saved prior handler. -/
theorem C5_witness :
    SIGUSR1 ∈ optional_signals ∧
    host_signal_handler Action.notHandled id SIGUSR1 mctx0 blankState =
      (blankState, [Event.submitException (buildHostContext SIGUSR1 mctx0)]) :=
  ⟨by decide,
   C5_optional_swallow id SIGUSR1 mctx0 blankState (by decide) (by decide) (by decide)⟩

/-! ### Claim C6: re-raise with default action -/

/-- C6: when the enclave does not handle a mandatory signal (or `SIGABRT`)
whose saved disposition is the default action, the handler resets exactly
that signal's live disposition to default and re-raises it; a subsequent
delivery of the re-raised signal performs the OS default action exactly once
and does not re-enter the translator. -/
theorem C6_reraise_default (eff : OsState → OsState) (sig_num : Nat)
    (mctx : MContext) (s : HostState)
    (hcat : sig_num ∈ default_signals ∨ sig_num = SIGABRT)
    (hdfl : (s.g_previous_sigaction sig_num).sa_handler = Handler.dfl) :
    (host_signal_handler Action.notHandled eff sig_num mctx s).2 =
      [Event.submitException (buildHostContext sig_num mctx),
       Event.resetToDefault sig_num, Event.raiseSig sig_num] ∧
    ((host_signal_handler Action.notHandled eff sig_num mctx s).1.os.live sig_num).sa_handler =
      Handler.dfl ∧
    (∀ m, m ≠ sig_num →
      (host_signal_handler Action.notHandled eff sig_num mctx s).1.os.live m = s.os.live m) ∧
    (∀ v' eff' mctx',
      deliverSignal v' eff' sig_num mctx'
          (host_signal_handler Action.notHandled eff sig_num mctx s).1 =
        ((host_signal_handler Action.notHandled eff sig_num mctx s).1,
         [Event.defaultAction sig_num])) := by
  have hbp : optionalBypassLoop optional_signals sig_num = false := by
    rcases hcat with h | h
    · exact optionalBypassLoop_not_mem (default_not_optional _ h)
    · subst h; decide
  refine ⟨?_, ?_, ?_, ?_⟩
  · simp [host_signal_handler, hdfl, hbp]
  · simp [host_signal_handler, hdfl, hbp]
  · intro m hm
    simp [host_signal_handler, hdfl, hbp, Function.update_noteq hm]
  · intro v' eff' mctx'
    simp [deliverSignal, host_signal_handler, hdfl, hbp]

/-- Witness for C6 at an unhandled `SIGSEGV` with no saved prior handler. -/
theorem C6_witness :
    (host_signal_handler Action.notHandled id SIGSEGV mctx0 blankState).2 =
      [Event.submitException (buildHostContext SIGSEGV mctx0),
       Event.resetToDefault SIGSEGV, Event.raiseSig SIGSEGV] ∧
    deliverSignal Action.notHandled id SIGSEGV mctx0
        (host_signal_handler Action.notHandled id SIGSEGV mctx0 blankState).1 =
      ((host_signal_handler Action.notHandled id SIGSEGV mctx0 blankState).1,
       [Event.defaultAction SIGSEGV]) := by
  have h := C6_reraise_default id SIGSEGV mctx0 blankState (Or.inl (by decide)) (by decide)
  exact ⟨h.1, h.2.2.2 Action.notHandled id mctx0⟩

/-! ### Claim C7: chaining restores the process mask -/

/-- C7: whenever the resolver chains to a saved prior handler, whatever the
chained handler does to the OS state, the process signal mask after the
handler returns equals its value immediately before the resolver swapped in
the saved mask; the previous handler is invoked with extended info when the
saved flags contain `SA_SIGINFO` and in the simple form otherwise. -/
theorem C7_mask_round_trip (eff : OsState → OsState) (sig_num : Nat)
    (mctx : MContext) (s : HostState)
    (hh : (s.g_previous_sigaction sig_num).sa_handler ≠ Handler.dfl) :
    (host_signal_handler Action.notHandled eff sig_num mctx s).1.os.mask = s.os.mask ∧
    ((s.g_previous_sigaction sig_num).sa_flags.land SA_SIGINFO ≠ 0 →
      Event.invokeSiginfo (s.g_previous_sigaction sig_num).sa_handler sig_num ∈
        (host_signal_handler Action.notHandled eff sig_num mctx s).2) ∧
    ((s.g_previous_sigaction sig_num).sa_flags.land SA_SIGINFO = 0 →
      Event.invokeSimple (s.g_previous_sigaction sig_num).sa_handler sig_num ∈
        (host_signal_handler Action.notHandled eff sig_num mctx s).2) := by
  by_cases hnd : (s.g_previous_sigaction sig_num).sa_flags.land SA_NODEFER = 0 <;>
    refine ⟨?_, ?_, ?_⟩ <;>
    simp [host_signal_handler, chainToPrevious, hh, hnd]
  all_goals (intro hsi; simp [hsi])

/-- Witness for C7 at a chained `SIGUSR1` delivery through a simple-form
saved handler. -/
theorem C7_witness :
    (host_signal_handler Action.notHandled id SIGUSR1 mctx0 chainState).1.os.mask =
      chainState.os.mask ∧
    Event.invokeSimple (chainState.g_previous_sigaction SIGUSR1).sa_handler SIGUSR1 ∈
      (host_signal_handler Action.notHandled id SIGUSR1 mctx0 chainState).2 := by
  have h := C7_mask_round_trip id SIGUSR1 mctx0 chainState (by decide)
  exact ⟨h.1, h.2.2 (by decide)⟩

/-! ### Claim C8: installation failure aborts -/

/-- C8: if the initial `sigprocmask` query fails, or any `sigaction`
registration for any catalog signal fails, `_register_signal_handlers`
aborts the process (models `abort()` as `none`): it never returns normally
with a partially installed interception layer. -/
theorem C8_install_failure_aborts (fails : OsCallFailures) (s : HostState)
    (h : fails.sigprocmaskFails = true ∨
      ∃ sig_num ∈ catalogOrder, fails.sigactionFails sig_num = true) :
    register_signal_handlers fails s = none := by
  rcases h with hp | ⟨sig_num, hmem, hf⟩
  · simp [register_signal_handlers, hp]
  · by_cases hp : fails.sigprocmaskFails = true
    · simp [register_signal_handlers, hp]
    · rcases List.mem_append.mp hmem with hm | hm
      · simp [register_signal_handlers, hp, registerLoop_none hm hf]
      · cases hres : registerLoop fails default_signals
            { sa_handler := Handler.translator, sa_mask := s.os.mask
              sa_flags := (SA_SIGINFO.lor SA_NODEFER).lor SA_RESTART } s with
        | none => simp [register_signal_handlers, hp, hres]
        | some p =>
          obtain ⟨a, s₁⟩ := p
          simp [register_signal_handlers, hp, hres, registerLoop_none hm hf]

/-- Witness for C8: a failing `sigaction` for `SIGBUS` aborts installation. -/
theorem C8_witness :
    (failBus.sigprocmaskFails = true ∨
      ∃ sig_num ∈ catalogOrder, failBus.sigactionFails sig_num = true) ∧
    register_signal_handlers failBus blankState = none := by
  have h : failBus.sigprocmaskFails = true ∨
      ∃ sig_num ∈ catalogOrder, failBus.sigactionFails sig_num = true :=
    Or.inr ⟨SIGBUS, by decide, by decide⟩
  exact ⟨h, C8_install_failure_aborts failBus blankState h⟩

/-! ### Claim C9: CONTINUE leaves everything unchanged -/

/-- C9: when the enclave returns `OE_EXCEPTION_CONTINUE_EXECUTION`, the
handler returns immediately with the state (registry, live dispositions and
process mask) it was entered with, having made no observable call beyond the
enclave entry point. -/
theorem C9_continue_returns_unchanged (eff : OsState → OsState) (sig_num : Nat)
    (mctx : MContext) (s : HostState) :
    host_signal_handler Action.continueExecution eff sig_num mctx s =
      (s, [Event.submitException (buildHostContext sig_num mctx)]) := by
  simp [host_signal_handler]

/-! ### Claim C10: SIG_IGN is chained, not swallowed -/

/-- C10: when the saved prior disposition is the `SIG_IGN` sentinel (which is
not `SIG_DFL`), an unhandled delivery takes the chain branch and invokes the
`SIG_IGN` sentinel value as a simple-form handler function instead of
swallowing the signal. -/
theorem C10_ign_is_chained (eff : OsState → OsState) (sig_num : Nat)
    (mctx : MContext) (s : HostState)
    (hign : (s.g_previous_sigaction sig_num).sa_handler = Handler.ign)
    (hsi : (s.g_previous_sigaction sig_num).sa_flags.land SA_SIGINFO = 0) :
    Event.invokeSimple Handler.ign sig_num ∈
      (host_signal_handler Action.notHandled eff sig_num mctx s).2 := by
  by_cases hnd : (s.g_previous_sigaction sig_num).sa_flags.land SA_NODEFER = 0 <;>
    simp [host_signal_handler, chainToPrevious, hign, hsi, hnd]

/-- Witness for C10 at `SIGUSR1` with a saved `SIG_IGN` disposition. -/
theorem C10_witness :
    Event.invokeSimple Handler.ign SIGUSR1 ∈
      (host_signal_handler Action.notHandled id SIGUSR1 mctx0 ignState).2 :=
  C10_ign_is_chained id SIGUSR1 mctx0 ignState (by decide) (by decide)

end OE
